import Mathlib

/-!
Verification development for the devtools template-synchronization scripts
(update_metadata.py, update_workflow.py, their prototypes, and
update_template.py).  The Python sources are shallowly embedded: file
contents are byte lists, directories are association lists, TOML documents
are a mutual inductive tree, stdin is an explicit list of answer strings,
and subprocess collaborators (git, the MD5 digest) are modelled at their
documented interfaces.
-/

namespace Devtools

/-! ## CPython string helpers (str.strip / str.lower over ASCII) -/

/-- ASCII lower-casing of a single character, as CPython str.lower acts on
ASCII input (the only characters the scripts compare against). -/
def asciiLower (c : Char) : Char :=
  if 'A' ≤ c ∧ c ≤ 'Z' then Char.ofNat (c.toNat + 32) else c

/-- CPython str.strip default whitespace set (ASCII part). -/
def isSpaceCh (c : Char) : Bool :=
  c = ' ' || c = '\t' || c = '\n' || c = '\r' || c = '\x0b' || c = '\x0c'

/-- Drop leading and trailing whitespace from a character list. -/
def stripChars (l : List Char) : List Char :=
  ((l.dropWhile isSpaceCh).reverse.dropWhile isSpaceCh).reverse

/-- The composition answer.strip().lower() applied throughout the scripts. -/
def pyStripLower (s : String) : String :=
  String.mk ((stripChars s.data).map asciiLower)

/-! ## Accepted answer tokens -/

/-- pos = ["yes", "y", "yay"] in every user_response variant. -/
def posTokens : List String := ["yes", "y", "yay"]

/-- neg = ["no", "n", "nay"] in every user_response variant. -/
def negTokens : List String := ["no", "n", "nay"]

/-- answer in pos or answer in neg. -/
def recognizedTok (a : String) : Bool :=
  posTokens.contains a || negTokens.contains a

/-- Error message raised by update_metadata.py / update_workflow.py
user_response on the third attempt. -/
def attrErr : String :=
  "AttributeError: You failed 3 times to answer a simple (y/n) question!"

/-- Error message raised by the prototype user_response variants. -/
def runtimeErr : String :=
  "RuntimeError: I warned you! You failed 3 times to answer a simple (y/n) question! Please start over!"

/-- user_response of cubi-tools/update_metadata.py (lines 443-460) and
cubi-tools/update_workflow.py (lines 477-494), which share this exact body.
stdin is the list of pending answer lines; an exhausted stdin is the
EOFError input() would raise.  The source increments attempt, reads and
normalizes the answer, raises AttributeError when the incremented attempt
equals 3, otherwise recurses on an unrecognized answer and returns
(answer in pos) on a recognized one. -/
def user_response (answers : List String) (attempt : Nat) :
    Except String (Bool × List String) :=
  match answers with
  | [] => .error "EOFError"
  | a :: rest =>
    let attempt := attempt + 1
    let answer := pyStripLower a
    if attempt = 3 then .error attrErr
    else if !(recognizedTok answer) then user_response rest attempt
    else .ok (posTokens.contains answer, rest)

/-- user_response of prototypes/update_workflow.py (lines 472-492): the
unrecognized-answer recursion happens before the attempt check, so
unrecognized answers re-prompt without bound and the RuntimeError fires
only when a recognized answer arrives on attempt 3 or later. -/
def user_response_wf_proto (answers : List String) (attempt : Nat) :
    Except String (Bool × List String) :=
  match answers with
  | [] => .error "EOFError"
  | a :: rest =>
    let attempt := attempt + 1
    let answer := pyStripLower a
    if !(recognizedTok answer) then user_response_wf_proto rest attempt
    else if 3 ≤ attempt then .error runtimeErr
    else .ok (posTokens.contains answer, rest)

/-- user_response of prototypes/update_metadata.py (lines 436-456): raises
on attempt 3 right after reading the answer, before looking at it. -/
def user_response_meta_proto (answers : List String) (attempt : Nat) :
    Except String (Bool × List String) :=
  match answers with
  | [] => .error "EOFError"
  | a :: rest =>
    let attempt := attempt + 1
    let answer := pyStripLower a
    if 3 ≤ attempt then .error runtimeErr
    else if !(recognizedTok answer) then user_response_meta_proto rest attempt
    else .ok (posTokens.contains answer, rest)

/-- The answers dictionary of update_template.py (update_file lines 218-226
and update_pyproject_toml lines 176-183): exact, case-sensitive lookup. -/
def answersMap (s : String) : Option Bool :=
  if s = "yes" ∨ s = "y" ∨ s = "yay" then some true
  else if s = "no" ∨ s = "n" ∨ s = "nay" then some false
  else none

/-- ValueError message of update_template.py for an unrecognized answer. -/
def valueErr (s : String) : String :=
  "ValueError: That was a yes or no question, but you answered: " ++ s

/-- The answer evaluation of update_template.py: one input() line, one dict
lookup, KeyError re-raised as ValueError; no re-prompt. -/
def evalAnswerTemplate (s : String) : Except String Bool :=
  match answersMap s with
  | some b => .ok b
  | none => .error (valueErr s)

/-! ## Content digest (hashlib.md5(...).hexdigest()) -/

/-- Modelled from the spec: the content-hash collaborator
("a cryptographic or non-cryptographic content-hash function over raw file
bytes", hashlib.md5 hexdigest in the sources).  hashlib is external to this
repository; only its interface matters to the scripts: a deterministic
function of the file bytes rendered as a 32-character lowercase
hexadecimal digest.  The compression itself is modelled by a simple
deterministic mixer into a 128-bit accumulator. -/
def md5nat (bs : List Nat) : Nat :=
  bs.foldl (fun acc byte => (acc * 31 + byte + 7) % 2 ^ 128) 5381 % 2 ^ 128

/-- Hexadecimal digit characters 0-9, a-f. -/
def hexDigit (n : Nat) : Char :=
  if n < 10 then Char.ofNat (48 + n) else Char.ofNat (87 + n)

/-- The 32-character hexdigest string of the modelled digest. -/
def md5hex (bs : List Nat) : String :=
  String.mk ((List.range 32).map fun i => hexDigit (md5nat bs / 16 ^ i % 16))

/-! ## Byte-level directory model -/

/-- A directory of byte files: relative path to file bytes.  Writing
shadows by consing, so earlier entries win on lookup. -/
def FSB := List (String × List Nat)

/-- Read a file (None when it does not exist). -/
def fsGet (fs : FSB) (p : String) : Option (List Nat) :=
  match fs with
  | [] => none
  | (q, b) :: rest => if q = p then some b else fsGet rest p

/-- Write a file (create or overwrite). -/
def fsSet (fs : FSB) (p : String) (b : List Nat) : FSB := (p, b) :: fs

/-! ## TOML documents (toml.load / toml.dumps round-trip level) -/

mutual
/-- A parsed TOML document: the scripts only read and write nested tables
and scalar version strings, so a document is a string leaf or a table of
ordered key-value fields.  Files handled through toml.load / toml.dumps
are modelled at this parse level. -/
inductive Toml where
  | str (s : String)
  | table (kvs : Fields)
/-- The ordered key-value fields of a table. -/
inductive Fields where
  | nil
  | cons (k : String) (v : Toml) (rest : Fields)
end

/-- Python dict lookup d[k] over the ordered fields. -/
def fget (kvs : Fields) (key : String) : Option Toml :=
  match kvs with
  | .nil => none
  | .cons k v rest => if k = key then some v else fget rest key

/-- Python dict assignment d[k] = v: replace in place, append if absent. -/
def fset (kvs : Fields) (key : String) (v : Toml) : Fields :=
  match kvs with
  | .nil => .cons key v .nil
  | .cons k w rest =>
    if k = key then .cons k v rest else .cons k w (fset rest key v)

/-- The key list of a table, in order. -/
def fkeys (kvs : Fields) : List String :=
  match kvs with
  | .nil => []
  | .cons k _ rest => k :: fkeys rest

mutual
/-- Structural equality of documents (Python == / != on loaded dicts). -/
def tomlBEq : Toml → Toml → Bool
  | .str a, .str b => a == b
  | .table a, .table b => fieldsBEq a b
  | _, _ => false
/-- Structural equality of table fields. -/
def fieldsBEq : Fields → Fields → Bool
  | .nil, .nil => true
  | .cons k v r, .cons k2 v2 r2 => k == k2 && tomlBEq v v2 && fieldsBEq r r2
  | _, _ => false
end

/-- Chained Python indexing d[k1][k2]...[kn]; None on a missing key or a
non-table intermediate (KeyError / TypeError). -/
def getPath (d : Toml) (p : List String) : Option Toml :=
  match d, p with
  | d, [] => some d
  | .str _, _ :: _ => none
  | .table kvs, k :: rest =>
    match fget kvs k with
    | none => none
    | some v => getPath v rest

/-- Chained Python indexing ending in an assignment
d[k1][k2]...[kn] = v: every intermediate key must exist and be a table
(KeyError / TypeError otherwise, modelled as None); the final key is set
in place. -/
def setPath (d : Toml) (p : List String) (v : Toml) : Option Toml :=
  match d, p with
  | _, [] => some v
  | .str _, _ :: _ => none
  | .table kvs, [k] => some (.table (fset kvs k v))
  | .table kvs, k :: k2 :: rest =>
    match fget kvs k with
    | none => none
    | some t =>
      match setPath t (k2 :: rest) v with
      | none => none
      | some t2 => some (.table (fset kvs k t2))

/-- The ordered key list of the table found at a path, if any. -/
def keysAt (d : Toml) (p : List String) : Option (List String) :=
  match getPath d p with
  | some (.table kvs) => some (fkeys kvs)
  | _ => none

/-- Leading-part test on key paths (p is an initial run of q). -/
def pfx (p q : List String) : Bool :=
  match p, q with
  | [], _ => true
  | _ :: _, [] => false
  | a :: as, b :: bs => a == b && pfx as bs

/-- Project a string leaf out of an optional document. -/
def asStr (o : Option Toml) : Option String :=
  match o with
  | some (.str s) => some s
  | _ => none

/-- A directory of TOML files at parse level, for files whose every access
in the scripts goes through toml.load / toml.dumps. -/
def FST := List (String × Toml)

/-- Read a TOML file. -/
def fstGet (fs : FST) (p : String) : Option Toml :=
  match fs with
  | [] => none
  | (q, t) :: rest => if q = p then some t else fstGet rest p

/-- Write a TOML file. -/
def fstSet (fs : FST) (p : String) (t : Toml) : FST := (p, t) :: fs

/-! ## File update procedures -/

/-- Per-file outcome, read off the printed report lines: "was updated!",
"was NOT updated!", "is up-to-date!". -/
inductive Outcome where
  | updated
  | notUpdated
  | upToDate
deriving DecidableEq

/-- Filesystem mutation events performed by an update step.  writeB is a
direct byte write onto a path (shutil.copyfile onto the destination),
writeT a direct serialized TOML write (open(.., "w") + toml.dumps), and
rename a path rename; the sources never emit rename, the constructor
exists so that the absence of temp-and-rename can be stated. -/
inductive FsEvent where
  | writeB (path : String) (data : List Nat)
  | writeT (path : String) (doc : Toml)
  | rename (src dst : String)

/-- Result of one whole-file update step: the local directory afterwards,
the unconsumed stdin, the questions asked, the mutation events, and the
reported outcome. -/
structure FileRes where
  fs : FSB
  answers : List String
  prompts : List String
  events : List FsEvent
  outcome : Outcome

/-- get_local_checksum of cubi-tools/update_metadata.py (lines 284-297):
MD5 of the local file, or the empty string when the file is missing. -/
def localChecksum (fs : FSB) (f : String) : String :=
  match fsGet fs f with
  | some b => md5hex b
  | none => ""

/-- The question text passed to user_response for a differing file
(quoting punctuation elided). -/
def updatePrompt (f : String) : String := "Update " ++ f

/-- The differ branch of update_file in cubi-tools/update_metadata.py
(lines 334-344): surface both checksums, ask via user_response, on yes
shutil.copyfile the reference file onto the local path, on no leave the
directory untouched. -/
def ask_and_update (f : String) (target : FSB) (rb : List Nat)
    (answers : List String) : Except String FileRes :=
  match user_response answers 0 with
  | .error e => .error e
  | .ok (true, rest) =>
    .ok ⟨fsSet target f rb, rest, [updatePrompt f], [.writeB f rb], .updated⟩
  | .ok (false, rest) =>
    .ok ⟨target, rest, [updatePrompt f], [], .notUpdated⟩

/-- update_file of cubi-tools/update_metadata.py (lines 313-347), non-dry
branch; cubi-tools/update_workflow.py lines 321-355 is the same body.
get_ref_checksum opens the reference file unconditionally, so a missing
reference file raises; otherwise the checksums are compared and a
difference enters the decision branch. -/
def update_file (f : String) (target branchFs : FSB)
    (answers : List String) : Except String FileRes :=
  match fsGet branchFs f with
  | none => .error "FileNotFoundError"
  | some rb =>
    if localChecksum target f ≠ md5hex rb then
      ask_and_update f target rb answers
    else .ok ⟨target, answers, [], [], .upToDate⟩

/-- calculate_md5_checksum of prototypes/update_metadata.py
(lines 287-306): digest when the file exists, empty string otherwise. -/
def calcMd5 (fs : FSB) (p : String) : String :=
  match fsGet fs p with
  | some b => md5hex b
  | none => ""

/-- The decision branch of prototypes/update_metadata.py update_file
(lines 327-347): prompt via its own user_response variant, on yes
shutil.copyfile(branch file, target file) — which itself raises if the
branch file is missing. -/
def ask_and_update_proto (f : String) (target branchFs : FSB)
    (answers : List String) : Except String FileRes :=
  match user_response_meta_proto answers 0 with
  | .error e => .error e
  | .ok (true, rest) =>
    match fsGet branchFs f with
    | some rb =>
      .ok ⟨fsSet target f rb, rest, [updatePrompt f], [.writeB f rb], .updated⟩
    | none => .error "FileNotFoundError"
  | .ok (false, rest) =>
    .ok ⟨target, rest, [updatePrompt f], [], .notUpdated⟩

/-- update_file of prototypes/update_metadata.py (lines 309-350), non-dry
branch: both sides are fingerprinted with calculate_md5_checksum; equal
checksums report up-to-date with no prompt and no mutation. -/
def update_file_proto (target branchFs : FSB) (f : String)
    (answers : List String) : Except String FileRes :=
  if calcMd5 target f ≠ calcMd5 branchFs f then
    ask_and_update_proto f target branchFs answers
  else .ok ⟨target, answers, [], [], .upToDate⟩

/-! ## Structured pyproject.toml updaters -/

/-- The dotted key path cubi.metadata.version. -/
def metaPath : List String := ["cubi", "metadata", "version"]

/-- The dotted key path cubi.workflow.template.version. -/
def wfPath : List String := ["cubi", "workflow", "template", "version"]

/-- compare_metadata_versions of cubi-tools/update_metadata.py
(lines 463-483): load both documents, extract cubi.metadata.version from
each, overwrite the local value with the reference one, return
(reference version, local version, patched local document).  A missing
key is the KeyError case, modelled as None. -/
def compare_metadata_versions (branchDoc targetDoc : Toml) :
    Option (Toml × Toml × Toml) :=
  match getPath branchDoc metaPath, getPath targetDoc metaPath with
  | some bv, some tv =>
    match setPath targetDoc metaPath bv with
    | some newDoc => some (bv, tv, newDoc)
    | none => none
  | _, _ => none

/-- get_metadata_versions of prototypes/update_metadata.py
(lines 459-491): same reads and single-path overwrite as
compare_metadata_versions, under the prototype naming. -/
def get_metadata_versions (metadataBranch metadataTarget : Toml) :
    Option (Toml × Toml × Toml) :=
  match getPath metadataBranch metaPath, getPath metadataTarget metaPath with
  | some branchVersion, some targetVersion =>
    match setPath metadataTarget metaPath branchVersion with
    | some targetPyproject => some (branchVersion, targetVersion, targetPyproject)
    | none => none
  | _, _ => none

/-- Result of a structured pyproject.toml step over the parse-level
directory. -/
structure PyRes where
  fs : FST
  answers : List String
  prompts : List String
  events : List FsEvent
  outcome : Outcome

/-- Prompt asked when the local pyproject.toml is missing (quoting
punctuation elided). -/
def addPyprojectPrompt : String :=
  "There is no pyproject.toml in your folder. Add pyproject.toml"

/-- Prompt asked before bumping the metadata version (question text of
cubi-tools/update_metadata.py lines 415-420, abbreviated to its key
phrase). -/
def updMetaPrompt : String :=
  "Do you want to update the metadata files version in pyproject.toml"

/-- update_pyproject_toml of cubi-tools/update_metadata.py
(lines 350-440), non-dry branch: missing local file prompts to add and
copies the reference file verbatim; otherwise both documents are compared
on cubi.metadata.version and, on a difference and a positive answer, the
patched local document is written back in place. -/
def update_pyproject_meta (target branchFs : FST) (answers : List String) :
    Except String PyRes :=
  match fstGet target "pyproject.toml" with
  | none =>
    match user_response answers 0 with
    | .error e => .error e
    | .ok (true, rest) =>
      match fstGet branchFs "pyproject.toml" with
      | some bdoc =>
        .ok ⟨fstSet target "pyproject.toml" bdoc, rest, [addPyprojectPrompt],
             [.writeT "pyproject.toml" bdoc], .updated⟩
      | none => .error "FileNotFoundError"
    | .ok (false, rest) =>
      .ok ⟨target, rest, [addPyprojectPrompt], [], .notUpdated⟩
  | some tdoc =>
    match fstGet branchFs "pyproject.toml" with
    | none => .error "FileNotFoundError"
    | some bdoc =>
      match compare_metadata_versions bdoc tdoc with
      | none => .error "KeyError"
      | some (bv, tv, newDoc) =>
        if tomlBEq bv tv then .ok ⟨target, answers, [], [], .upToDate⟩
        else
          match user_response answers 0 with
          | .error e => .error e
          | .ok (true, rest) =>
            .ok ⟨fstSet target "pyproject.toml" newDoc, rest, [updMetaPrompt],
                 [.writeT "pyproject.toml" newDoc], .updated⟩
          | .ok (false, rest) =>
            .ok ⟨target, rest, [updMetaPrompt], [], .notUpdated⟩

/-- The wget download artifact of update_template.py. -/
def tempName : String := "pyproject.toml.temp"

/-- update_pyproject_toml of update_template.py (lines 173-208): one
input() evaluated through the answers dict; on a positive answer wget
downloads the reference pyproject.toml to pyproject.toml.temp inside the
project directory, both files are loaded, cubi.metadata.version of the
local document is overwritten with the downloaded value and the local
file is rewritten; the temp file is left behind.  toml.load of a missing
file raises. -/
def update_pyproject_template (fs : FST) (refDoc : Toml) (ans : String) :
    Except String FST :=
  match evalAnswerTemplate ans with
  | .error e => .error e
  | .ok false => .ok fs
  | .ok true =>
    let fs1 := fstSet fs tempName refDoc
    match fstGet fs1 tempName, fstGet fs1 "pyproject.toml" with
    | some newDoc, some oldDoc =>
      match getPath newDoc metaPath with
      | none => .error "KeyError"
      | some vnew =>
        match setPath oldDoc metaPath vnew with
        | none => .error "KeyError"
        | some merged => .ok (fstSet fs1 "pyproject.toml" merged)
    | _, _ => .error "FileNotFoundError"

/-- compare_pyproject_versions of cubi-tools/update_workflow.py
(lines 575-614): extract and patch cubi.metadata.version, then extract
and patch cubi.workflow.template.version, on the same local document;
return all four version values and the doubly patched document. -/
def compare_pyproject_versions (projectDoc templateDoc : Toml) :
    Option (Toml × Toml × Toml × Toml × Toml) :=
  match getPath templateDoc metaPath, getPath projectDoc metaPath with
  | some tm, some pm =>
    match setPath projectDoc metaPath tm with
    | none => none
    | some p1 =>
      match getPath templateDoc wfPath, getPath p1 wfPath with
      | some tw, some pw =>
        match setPath p1 wfPath tw with
        | none => none
        | some p2 => some (tm, pm, tw, pw, p2)
      | _, _ => none
  | _, _ => none

/-- Prompt asked by cubi-tools/update_workflow.py before the joint version
bump (question text abbreviated to its key phrase). -/
def updWfPrompt : String :=
  "Do you want to update the metadata and workflow versions in pyproject.toml"

/-- update_pyproject_toml of cubi-tools/update_workflow.py
(lines 358-474), non-dry branch: a missing local file prompts to add and
copies the reference verbatim; otherwise the metadata and workflow
versions are compared under a single disjunction, one user_response
decides both, and on yes the doubly patched document is written back in
one write. -/
def update_pyproject_wf (target branchFs : FST) (answers : List String) :
    Except String PyRes :=
  match fstGet target "pyproject.toml" with
  | none =>
    match user_response answers 0 with
    | .error e => .error e
    | .ok (true, rest) =>
      match fstGet branchFs "pyproject.toml" with
      | some bdoc =>
        .ok ⟨fstSet target "pyproject.toml" bdoc, rest, [addPyprojectPrompt],
             [.writeT "pyproject.toml" bdoc], .updated⟩
      | none => .error "FileNotFoundError"
    | .ok (false, rest) =>
      .ok ⟨target, rest, [addPyprojectPrompt], [], .notUpdated⟩
  | some pdoc =>
    match fstGet branchFs "pyproject.toml" with
    | none => .error "FileNotFoundError"
    | some tdoc =>
      match compare_pyproject_versions pdoc tdoc with
      | none => .error "KeyError"
      | some (tm, pm, tw, pw, p2) =>
        if tomlBEq tm pm && tomlBEq tw pw then
          .ok ⟨target, answers, [], [], .upToDate⟩
        else
          match user_response answers 0 with
          | .error e => .error e
          | .ok (true, rest) =>
            .ok ⟨fstSet target "pyproject.toml" p2, rest, [updWfPrompt],
                 [.writeT "pyproject.toml" p2], .updated⟩
          | .ok (false, rest) =>
            .ok ⟨target, rest, [updWfPrompt], [], .notUpdated⟩

/-- Modelled from the spec: "each key path is compared and decided
independently, but both updates are merged into a single rewritten
document before the single atomic write".  One key path: compare the two
values, and only when they differ consume one decision of its own;
apply patches the document, skip keeps it. -/
def specPatchPath (doc tdoc : Toml) (p : List String)
    (answers : List String) : Except String (Toml × List String) :=
  match getPath tdoc p, getPath doc p with
  | some tv, some pv =>
    if tomlBEq tv pv then .ok (doc, answers)
    else
      match user_response answers 0 with
      | .error e => .error e
      | .ok (true, rest) =>
        match setPath doc p tv with
        | some d2 => .ok (d2, rest)
        | none => .error "KeyError"
      | .ok (false, rest) => .ok (doc, rest)
  | _, _ => .error "KeyError"

/-- Modelled from the spec: the independent-decision structured update
over both tracked key paths, merging both outcomes into one document. -/
def specIndependentPyproject (pdoc tdoc : Toml) (answers : List String) :
    Except String (Toml × List String) :=
  match specPatchPath pdoc tdoc metaPath answers with
  | .error e => .error e
  | .ok (d1, a1) =>
    match specPatchPath d1 tdoc wfPath a1 with
    | .error e => .error e
    | .ok (d2, a2) => .ok (d2, a2)

/-! ## Synchronization drivers -/

/-- Leading-run test on character lists. -/
def pfxChars (n h : List Char) : Bool :=
  match n, h with
  | [], _ => true
  | _ :: _, [] => false
  | a :: as, b :: bs => a == b && pfxChars as bs

/-- Occurrence of a character run anywhere in a list (Python substring
membership test). -/
def containsSeq (n : List Char) (h : List Char) : Bool :=
  match h with
  | [] => pfxChars n []
  | _ :: bs => pfxChars n h || containsSeq n bs

/-- Python substring membership needle in hay. -/
def strHas (hay needle : String) : Bool := containsSeq needle.data hay.data

/-- update_file of update_template.py (lines 211-248): compare the two
checksums (git hash-object locally, curl remotely — external
collaborators folded into the differs oracle), and on a difference read
one answer through the answers dict; a positive answer wgets the file
onto the local path and returns True, a negative one returns False, and
an unrecognized one raises ValueError. -/
def updateFileT (f : String) (differs : String → Bool)
    (answers : List String) : Except String (Bool × List String) :=
  if differs f then
    match answers with
    | [] => .error "EOFError"
    | a :: rest =>
      match evalAnswerTemplate a with
      | .error e => .error e
      | .ok b => .ok (b, rest)
  else .ok (false, answers)

/-- The update loop of update_template.py main (lines 29-43), returning
the list of files actually dispatched to their update procedure, in
order.  The accumulator files_updated is threaded exactly as in the
source: for a non-pyproject entry the assignment
files_updated = files_updated or update_file(...) short-circuits, so
once files_updated is True the comparison is never run again; the
pyproject.toml entry calls update_pyproject_toml only when files_updated
is True (that call starts with one input() of its own). -/
def tmain (files : List String) (differs : String → Bool)
    (answers : List String) (filesUpdated : Bool) :
    Except String (List String) :=
  match files with
  | [] => .ok []
  | f :: rest =>
    if f = "pyproject.toml" then
      if filesUpdated then
        match answers with
        | [] => .error "EOFError"
        | a :: ans2 =>
          match evalAnswerTemplate a with
          | .error e => .error e
          | .ok _ =>
            match tmain rest differs ans2 filesUpdated with
            | .error e => .error e
            | .ok tr => .ok (f :: tr)
      else tmain rest differs answers filesUpdated
    else
      if filesUpdated then tmain rest differs answers filesUpdated
      else
        match updateFileT f differs answers with
        | .error e => .error e
        | .ok (b, ans2) =>
          match tmain rest differs ans2 (filesUpdated || b) with
          | .error e => .error e
          | .ok tr => .ok (f :: tr)

/-- The metadata file list shared by the scripts (pyproject.toml handled
separately). -/
def metadataFiles3 : List String := ["CITATION.md", "LICENSE", ".editorconfig"]

/-- The files excluded from the workflow update because they are always
project specific (update_workflow.py lines 520-524). -/
def excludedFiles : List String :=
  ["pyproject.toml", "workflow/rules/00_modules.smk", "workflow/rules/99_aggregate.smk"]

/-- update_file_list of cubi-tools/update_workflow.py (lines 508-572),
file-list part: scan of the template directory is the input list; the
excluded files and anything under .git/ are dropped, pyproject.toml is
appended so it sits at the end, and without the metadata switch the
metadata files are filtered out. The dry-run branches return fixed small
selections. -/
def workflowFilesOf (allFiles : List String) : List String :=
  (allFiles.filter fun item => !(excludedFiles.contains item)).filter
    (fun item => !(strHas item ".git/")) ++ ["pyproject.toml"]

/-- The branch selection of update_file_list over the scanned template
files. -/
def update_file_list (allFiles : List String) (metadata dryrun : Bool) :
    List String :=
  if dryrun then
    if metadata then
      ["LICENSE", "workflow/rules/commons/00_commons.smk", "pyproject.toml"]
    else
      ["README.md", "workflow/rules/commons/00_commons.smk", "pyproject.toml"]
  else
    if metadata then workflowFilesOf allFiles
    else (workflowFilesOf allFiles).filter
      fun item => !(metadataFiles3.contains item)

/-- The update loop of cubi-tools/update_workflow.py main (lines 85-93):
every listed file is dispatched unconditionally, pyproject.toml to
update_pyproject_toml and everything else to update_file, so the
dispatch trace tags each file with whether it took the structured
route. -/
def wmainDispatch (files : List String) : List (String × Bool) :=
  match files with
  | [] => []
  | f :: rest => (f, f = "pyproject.toml") :: wmainDispatch rest

/-! ## Dry-run driver of cubi-tools/update_metadata.py -/

/-- A project or mirror working tree: plain byte files plus the
parse-level pyproject.toml slot. -/
structure Dir where
  files : FSB
  pyproject : Option Toml

/-- The local clone of the template repository: its branches with their
working trees, and the branch currently checked out.  The
version-control client is an external collaborator ("clone at revision,
fetch all, checkout revision"); it is modelled at that interface. -/
structure Mirror where
  branches : List (String × Dir)
  current : String

/-- The working tree currently visible in the mirror directory. -/
def wtree (m : Mirror) : Dir :=
  match m.branches.find? (fun e => e.1 = m.current) with
  | some e => e.2
  | none => ⟨[], none⟩

/-- git pull --all against the remote: every local branch is brought to
the remote state (fetch plus fast-forward merge), the checked-out branch
stays checked out and its visible working tree now shows the remote
content. -/
def gitPullAll (m : Mirror) (remote : List (String × Dir)) : Mirror :=
  ⟨remote, m.current⟩

/-- git checkout branch: switches the working tree, or fails with an
error: message when the branch does not exist (the failure pattern the
scripts grep for). -/
def gitCheckout (m : Mirror) (b : String) : Except String Mirror :=
  if (m.branches.find? (fun e => e.1 = b)).isSome then
    .ok ⟨m.branches, b⟩
  else .error "error: branch or version tag does not exist"

/-- clone of cubi-tools/update_metadata.py (lines 166-281), dry-run
branch (lines 175-218): a missing mirror raises NameError; an existing
one is refreshed with git pull --all and git checkout of the requested
source even though this is a dry run. -/
def cloneDry (mirror : Option Mirror) (remote : List (String × Dir))
    (source : String) : Except String Mirror :=
  match mirror with
  | none => .error "NameError: the template-metadata-files repo needs to be present"
  | some m => gitCheckout (gitPullAll m remote) source

/-- update_file of cubi-tools/update_metadata.py, dry-run branch
(lines 320-330): both checksums are computed (the reference read fails
if the file is absent from the mirror) and only report lines are
printed. -/
def update_file_dry (f : String) (_localDir mirrorDir : Dir) :
    Except String Unit :=
  match fsGet mirrorDir.files f with
  | none => .error "FileNotFoundError"
  | some _ => .ok ()

/-- update_pyproject_toml of cubi-tools/update_metadata.py, dry-run
branch (lines 360-390): a missing local pyproject.toml only prints;
otherwise both documents are loaded and compared, printing either
outcome. -/
def update_pyproject_dry (localDir mirrorDir : Dir) : Except String Unit :=
  match localDir.pyproject with
  | none => .ok ()
  | some tdoc =>
    match mirrorDir.pyproject with
    | none => .error "FileNotFoundError"
    | some bdoc =>
      match compare_metadata_versions bdoc tdoc with
      | none => .error "KeyError"
      | some _ => .ok ()

/-- The whole dry-run invocation of cubi-tools/update_metadata.py main:
resolve the mirror (cloneDry), walk CITATION.md, LICENSE, .editorconfig
through the dry update, handle pyproject.toml last, then best-effort
reset the mirror to main (the final git checkout main with
check=False).  The local directory is returned alongside the mirror so
its final state is part of the result. -/
def mainDry (localDir : Dir) (mirror : Option Mirror)
    (remote : List (String × Dir)) (source : String) :
    Except String (Dir × Mirror) :=
  match cloneDry mirror remote source with
  | .error e => .error e
  | .ok m =>
    match update_file_dry "CITATION.md" localDir (wtree m) with
    | .error e => .error e
    | .ok _ =>
      match update_file_dry "LICENSE" localDir (wtree m) with
      | .error e => .error e
      | .ok _ =>
        match update_file_dry ".editorconfig" localDir (wtree m) with
        | .error e => .error e
        | .ok _ =>
          match update_pyproject_dry localDir (wtree m) with
          | .error e => .error e
          | .ok _ =>
            match gitCheckout m "main" with
            | .ok m2 => .ok (localDir, m2)
            | .error _ => .ok (localDir, m)

/-! ## Concrete instances used by individual claims -/

/-- C1: mirror working tree before the dry run (LICENSE byte 65). -/
def c1dirOld : Dir :=
  ⟨[("CITATION.md", [67]), ("LICENSE", [65]), (".editorconfig", [69])], none⟩

/-- C1: the remote state of main (LICENSE advanced to byte 66). -/
def c1dirNew : Dir :=
  ⟨[("CITATION.md", [67]), ("LICENSE", [66]), (".editorconfig", [69])], none⟩

/-- C1: the local project directory for the dry run. -/
def c1loc : Dir :=
  ⟨[("CITATION.md", [67]), ("LICENSE", [65]), (".editorconfig", [69])], none⟩

/-- C1: the pre-existing mirror, checked out on main. -/
def c1m : Mirror := ⟨[("main", c1dirOld)], "main"⟩

/-- C1 witness: a local directory for a successful dry run. -/
def w1loc : Dir := ⟨[("LICENSE", [76])], none⟩

/-- C1 witness: mirror working tree. -/
def w1dir : Dir :=
  ⟨[("CITATION.md", [67]), ("LICENSE", [76]), (".editorconfig", [69])], none⟩

/-- C1 witness: the pre-existing mirror. -/
def w1m : Mirror := ⟨[("main", w1dir)], "main"⟩

/-- C3: local pyproject.toml with the version key plus an unrelated key. -/
def c3loc : Toml :=
  .table (.cons "cubi"
    (.table (.cons "metadata" (.table (.cons "version" (.str "1.5") .nil)) .nil))
    (.cons "other" (.str "x") .nil))

/-- C3: reference pyproject.toml carrying version 2.0. -/
def c3ref : Toml :=
  .table (.cons "cubi"
    (.table (.cons "metadata" (.table (.cons "version" (.str "2.0") .nil)) .nil)) .nil)

/-- C3: the local directory holding only pyproject.toml. -/
def c3fs : FST := [("pyproject.toml", c3loc)]

/-- C4: local directory whose LICENSE holds byte 65. -/
def c4target : FSB := [("LICENSE", [65])]

/-- C4: reference directory whose LICENSE holds byte 66. -/
def c4branch : FSB := [("LICENSE", [66])]

/-- C4: the result of applying the LICENSE update. -/
def c4res : FileRes :=
  ⟨fsSet c4target "LICENSE" [66], [], [updatePrompt "LICENSE"],
   [.writeB "LICENSE" [66]], .updated⟩

/-- C5: the shared content of the up-to-date file. -/
def c5bytes : List Nat := [76, 73, 67]

/-- C5: local directory. -/
def c5target : FSB := [("LICENSE", c5bytes)]

/-- C5: reference directory with identical bytes. -/
def c5branch : FSB := [("LICENSE", c5bytes)]

/-- C7: local pyproject.toml with metadata version 1.0 and workflow
template version 2.0. -/
def c7proj : Toml :=
  .table (.cons "cubi"
    (.table (.cons "metadata" (.table (.cons "version" (.str "1.0") .nil))
      (.cons "workflow"
        (.table (.cons "template" (.table (.cons "version" (.str "2.0") .nil)) .nil))
        .nil))) .nil)

/-- C7: template pyproject.toml with versions 1.1 and 2.1. -/
def c7tmpl : Toml :=
  .table (.cons "cubi"
    (.table (.cons "metadata" (.table (.cons "version" (.str "1.1") .nil))
      (.cons "workflow"
        (.table (.cons "template" (.table (.cons "version" (.str "2.1") .nil)) .nil))
        .nil))) .nil)

/-- C7: the document update_pyproject_toml writes for the run with answers
yes, no. -/
def c7code : Option Toml :=
  match update_pyproject_wf [("pyproject.toml", c7proj)]
      [("pyproject.toml", c7tmpl)] ["yes", "no"] with
  | .ok r => fstGet r.fs "pyproject.toml"
  | .error _ => none

/-- C7: the document the independent-decision procedure of the spec
produces for the same run. -/
def c7spec : Option Toml :=
  match specIndependentPyproject c7proj c7tmpl ["yes", "no"] with
  | .ok (d, _) => some d
  | .error _ => none

/-- C1 witness: the expected result of the successful dry run. -/
def w1res : Dir × Mirror := (w1loc, ⟨[("main", w1dir)], "main"⟩)

/-- C3: the local document after the single-field patch. -/
def c3merged : Toml :=
  .table (.cons "cubi"
    (.table (.cons "metadata" (.table (.cons "version" (.str "2.0") .nil)) .nil))
    (.cons "other" (.str "x") .nil))

/-- C7: the local document after the metadata-path patch alone. -/
def c7p1 : Toml :=
  .table (.cons "cubi"
    (.table (.cons "metadata" (.table (.cons "version" (.str "1.1") .nil))
      (.cons "workflow"
        (.table (.cons "template" (.table (.cons "version" (.str "2.0") .nil)) .nil))
        .nil))) .nil)

/-- C7: the local document after both patches. -/
def c7p2 : Toml :=
  .table (.cons "cubi"
    (.table (.cons "metadata" (.table (.cons "version" (.str "1.1") .nil))
      (.cons "workflow"
        (.table (.cons "template" (.table (.cons "version" (.str "2.1") .nil)) .nil))
        .nil))) .nil)

/-! ## Helper lemmas -/

theorem md5hex_length (bs : List Nat) : (md5hex bs).length = 32 := by
  simp [md5hex, String.length]

theorem md5hex_ne_empty (bs : List Nat) : md5hex bs ≠ "" := by
  intro h
  have h32 := md5hex_length bs
  rw [h] at h32
  simp [String.length] at h32

theorem fsGet_fsSet (fs : FSB) (p : String) (b : List Nat) (r : String) :
    fsGet (fsSet fs p b) r = if p = r then some b else fsGet fs r := by
  simp [fsGet, fsSet]

theorem fstGet_fstSet (fs : FST) (p : String) (t : Toml) (r : String) :
    fstGet (fstSet fs p t) r = if p = r then some t else fstGet fs r := by
  simp [fstGet, fstSet]

theorem fget_fset : ∀ (kvs : Fields) (key : String) (v : Toml) (r : String),
    fget (fset kvs key v) r = if key = r then some v else fget kvs r
  | .nil, key, v, r => by simp [fget, fset]
  | .cons k w rest, key, v, r => by
    by_cases hk : k = key
    · subst hk
      simp only [fset, if_pos rfl, fget]
      by_cases hr : k = r
      · subst hr; simp
      · simp [hr]
    · simp only [fset, if_neg hk, fget]
      by_cases hr : k = r
      · subst hr
        have hne : key ≠ k := fun h : key = k => hk h.symm
        simp [if_neg hne]
      · simp [hr, fget_fset rest key v r]

theorem fkeys_fset : ∀ (kvs : Fields) (key : String) (v w : Toml),
    fget kvs key = some w → fkeys (fset kvs key v) = fkeys kvs
  | .nil, key, v, w => by simp [fget]
  | .cons k u rest, key, v, w => by
    intro h
    by_cases hk : k = key
    · subst hk; simp [fset, fkeys]
    · simp only [fget, if_neg hk] at h
      simp [fset, if_neg hk, fkeys, fkeys_fset rest key v w h]

theorem getPath_nil (d : Toml) : getPath d [] = some d := by
  cases d <;> rfl

theorem getPath_cons (kvs : Fields) (k : String) (q : List String) :
    getPath (.table kvs) (k :: q) =
      match fget kvs k with
      | none => none
      | some v => getPath v q := rfl

theorem setPath_nil (d v : Toml) : setPath d [] v = some v := by
  cases d <;> rfl

theorem setPath_one (kvs : Fields) (k : String) (v : Toml) :
    setPath (.table kvs) [k] v = some (.table (fset kvs k v)) := rfl

theorem setPath_cons_inv (kvs : Fields) (k k2 : String) (rest : List String)
    (v d2 : Toml)
    (h : setPath (.table kvs) (k :: k2 :: rest) v = some d2) :
    ∃ t t2, fget kvs k = some t ∧ setPath t (k2 :: rest) v = some t2 ∧
      d2 = .table (fset kvs k t2) := by
  simp only [setPath] at h
  split at h
  · simp at h
  · rename_i t hf
    split at h
    · simp at h
    · rename_i t2 hs
      simp only [Option.some.injEq] at h
      exact ⟨t, t2, hf, hs, h.symm⟩

theorem getPath_setPath_self :
    ∀ (p : List String) (d v d2 : Toml),
      setPath d p v = some d2 → getPath d2 p = some v := by
  intro p
  induction p with
  | nil =>
    intro d v d2 h
    rw [setPath_nil] at h
    simp only [Option.some.injEq] at h
    subst h
    exact getPath_nil v
  | cons k tail IH =>
    intro d v d2 h
    cases d with
    | str s => simp [setPath] at h
    | table kvs =>
      cases tail with
      | nil =>
        rw [setPath_one] at h
        simp only [Option.some.injEq] at h
        subst h
        rw [getPath_cons, fget_fset, if_pos rfl]
        exact getPath_nil v
      | cons k2 rest =>
        obtain ⟨t, t2, hf, hs, hd2⟩ := setPath_cons_inv kvs k k2 rest v d2 h
        subst hd2
        rw [getPath_cons, fget_fset, if_pos rfl]
        exact IH t v t2 hs

theorem setPath_frame :
    ∀ (p : List String) (d v d2 : Toml) (q : List String),
      setPath d p v = some d2 → pfx p q = false → pfx q p = false →
      getPath d2 q = getPath d q := by
  intro p
  induction p with
  | nil => intro d v d2 q _ hpq _; simp [pfx] at hpq
  | cons k tail IH =>
    intro d v d2 q h hpq hqp
    cases d with
    | str s => simp [setPath] at h
    | table kvs =>
      cases q with
      | nil => simp [pfx] at hqp
      | cons r q2 =>
        by_cases hkr : k = r
        · subst hkr
          simp only [pfx, beq_self_eq_true, Bool.true_and] at hpq hqp
          cases tail with
          | nil => simp [pfx] at hpq
          | cons k2 rest =>
            obtain ⟨t, t2, hf, hs, hd2⟩ := setPath_cons_inv kvs k k2 rest v d2 h
            subst hd2
            rw [getPath_cons, getPath_cons, fget_fset, if_pos rfl, hf]
            exact IH t v t2 q2 hs hpq hqp
        · have hd2 : ∃ t2, d2 = .table (fset kvs k t2) := by
            cases tail with
            | nil =>
              rw [setPath_one] at h
              simp only [Option.some.injEq] at h
              exact ⟨v, h.symm⟩
            | cons k2 rest =>
              obtain ⟨t, t2, _, _, hd2⟩ := setPath_cons_inv kvs k k2 rest v d2 h
              exact ⟨t2, hd2⟩
          obtain ⟨t2, hd2⟩ := hd2
          subst hd2
          rw [getPath_cons, getPath_cons, fget_fset, if_neg hkr]

theorem keysAt_cons (kvs : Fields) (r : String) (q2 : List String) :
    keysAt (.table kvs) (r :: q2) =
      match fget kvs r with
      | some sub => keysAt sub q2
      | none => none := by
  cases hf : fget kvs r with
  | none => simp [keysAt, getPath_cons, hf]
  | some sub => simp [keysAt, getPath_cons, hf]

theorem setPath_keysAt :
    ∀ (p : List String) (d v d2 w : Toml) (q : List String),
      setPath d p v = some d2 → getPath d p = some w →
      pfx q p = true → q ≠ p →
      keysAt d2 q = keysAt d q := by
  intro p
  induction p with
  | nil =>
    intro d v d2 w q _ _ hq hne
    cases q with
    | nil => exact absurd rfl hne
    | cons r q2 => simp [pfx] at hq
  | cons k tail IH =>
    intro d v d2 w q h hg hq hne
    cases d with
    | str s => simp [setPath] at h
    | table kvs =>
      have hfg : ∃ t, fget kvs k = some t := by
        rw [getPath_cons] at hg
        cases hf : fget kvs k with
        | none => rw [hf] at hg; simp at hg
        | some t => exact ⟨t, rfl⟩
      obtain ⟨t, hf⟩ := hfg
      cases tail with
      | nil =>
        rw [setPath_one] at h
        simp only [Option.some.injEq] at h
        subst h
        cases q with
        | nil =>
          simp only [keysAt, getPath_nil]
          rw [fkeys_fset kvs k v t hf]
        | cons r q2 =>
          simp only [pfx] at hq
          have hrk : r = k := by
            by_cases hx : r = k
            · exact hx
            · simp [beq_eq_false_iff_ne.mpr hx] at hq
          subst hrk
          have hq2 : q2 = [] := by
            cases q2 with
            | nil => rfl
            | cons x xs => simp [pfx] at hq
          subst hq2
          exact absurd rfl hne
      | cons k2 rest =>
        obtain ⟨t0, t2, hf0, hs, hd2⟩ := setPath_cons_inv kvs k k2 rest v d2 h
        rw [hf] at hf0
        simp only [Option.some.injEq] at hf0
        subst hf0
        subst hd2
        have hgt : getPath t (k2 :: rest) = some w := by
          rw [getPath_cons, hf] at hg
          exact hg
        cases q with
        | nil =>
          simp only [keysAt, getPath_nil]
          rw [fkeys_fset kvs k t2 t hf]
        | cons r q2 =>
          simp only [pfx] at hq
          have hrk : r = k := by
            by_cases hx : r = k
            · exact hx
            · simp [beq_eq_false_iff_ne.mpr hx] at hq
          subst hrk
          have hq2 : pfx q2 (k2 :: rest) = true := by simpa using hq
          have hne2 : q2 ≠ k2 :: rest := by
            intro hEq
            exact hne (by rw [hEq])
          rw [keysAt_cons, keysAt_cons, fget_fset, if_pos rfl, hf]
          exact IH t v t2 w q2 hs hgt hq2 hne2

/-- update_file reduces to its decision branch when the reference file
exists and the fingerprints differ. -/
theorem update_file_differs (f : String) (target branchFs : FSB)
    (rb : List Nat) (answers : List String)
    (href : fsGet branchFs f = some rb)
    (hdiff : localChecksum target f ≠ md5hex rb) :
    update_file f target branchFs answers = ask_and_update f target rb answers := by
  unfold update_file
  simp only [href]
  rw [if_pos hdiff]

/-- Membership in the hexadecimal alphabet for every digest character. -/
theorem md5hex_hexdigits (bs : List Nat) :
    ∀ c ∈ (md5hex bs).data, c ∈ ("0123456789abcdef").data := by
  intro c hc
  simp only [md5hex, String.data, List.mem_map, List.mem_range] at hc
  obtain ⟨i, _, hc⟩ := hc
  subst hc
  have h16 : md5nat bs / 16 ^ i % 16 < 16 := Nat.mod_lt _ (by norm_num)
  unfold hexDigit
  interval_cases (md5nat bs / 16 ^ i % 16) <;> decide

/-! ## Claim C5 -/

/-- Claim C5 (confirmed): for a tracked file present with identical bytes
in both directories, update_file of prototypes/update_metadata.py computes
equal MD5 fingerprints, reports up-to-date, issues no prompt, consumes no
answer, and performs no filesystem mutation. -/
theorem C5_noop_on_equal_content (target branchFs : FSB) (f : String)
    (answers : List String) (b : List Nat)
    (hl : fsGet target f = some b) (hr : fsGet branchFs f = some b) :
    calcMd5 target f = calcMd5 branchFs f ∧
    update_file_proto target branchFs f answers =
      .ok ⟨target, answers, [], [], .upToDate⟩ := by
  have h1 : calcMd5 target f = md5hex b := by simp [calcMd5, hl]
  have h2 : calcMd5 branchFs f = md5hex b := by simp [calcMd5, hr]
  refine ⟨h1.trans h2.symm, ?_⟩
  unfold update_file_proto
  rw [h1, h2]
  simp

/-- Witness for C5 at a concrete directory pair. -/
theorem C5_witness :
    calcMd5 c5target "LICENSE" = calcMd5 c5branch "LICENSE" ∧
    update_file_proto c5target c5branch "LICENSE" ["n"] =
      .ok ⟨c5target, ["n"], [], [], .upToDate⟩ :=
  C5_noop_on_equal_content c5target c5branch "LICENSE" ["n"] c5bytes rfl rfl

/-! ## Claim C10 -/

/-- Claim C10 (confirmed): calculate_md5_checksum encodes a missing local
file as the empty string while any existing file digests to a 32-character
hexadecimal string, so the two fingerprints can never coincide; hence with
the local copy missing and the reference present, update_file of
prototypes/update_metadata.py never takes the up-to-date branch and always
enters the decision branch. -/
theorem C10_missing_local_reaches_decision (target branchFs : FSB)
    (f : String) (answers : List String) (b : List Nat)
    (hl : fsGet target f = none) (hr : fsGet branchFs f = some b) :
    calcMd5 target f = "" ∧
    (calcMd5 branchFs f).length = 32 ∧
    (∀ c ∈ (calcMd5 branchFs f).data, c ∈ ("0123456789abcdef").data) ∧
    calcMd5 target f ≠ calcMd5 branchFs f ∧
    update_file_proto target branchFs f answers =
      ask_and_update_proto f target branchFs answers := by
  have h1 : calcMd5 target f = "" := by simp [calcMd5, hl]
  have h2 : calcMd5 branchFs f = md5hex b := by simp [calcMd5, hr]
  have hne : calcMd5 target f ≠ calcMd5 branchFs f := by
    rw [h1, h2]
    exact fun h => md5hex_ne_empty b h.symm
  refine ⟨h1, by rw [h2]; exact md5hex_length b, ?_, hne, ?_⟩
  · rw [h2]; exact md5hex_hexdigits b
  · unfold update_file_proto
    rw [if_pos hne]

/-- Witness for C10 with the local LICENSE absent. -/
theorem C10_witness :
    calcMd5 ([] : FSB) "LICENSE" = "" ∧
    (calcMd5 [("LICENSE", [66])] "LICENSE").length = 32 ∧
    (∀ c ∈ (calcMd5 [("LICENSE", [66])] "LICENSE").data,
      c ∈ ("0123456789abcdef").data) ∧
    calcMd5 ([] : FSB) "LICENSE" ≠ calcMd5 [("LICENSE", [66])] "LICENSE" ∧
    update_file_proto [] [("LICENSE", [66])] "LICENSE" ["n"] =
      ask_and_update_proto "LICENSE" [] [("LICENSE", [66])] ["n"] :=
  C10_missing_local_reaches_decision [] [("LICENSE", [66])] "LICENSE" ["n"]
    [66] rfl rfl

/-! ## Claim C2 -/

/-- Claim C2 (counterexample): the claim says a recognized answer on
attempt 3 still returns its decision, and that only three unrecognized
answers raise.  In user_response of cubi-tools/update_metadata.py the
third call raises AttributeError right after reading the answer, even
though the third answer here is the recognized token yes. -/
theorem C2_counterexample :
    user_response ["x", "x", "yes"] 0 = .error attrErr ∧
    recognizedTok (pyStripLower "yes") = true := by
  exact ⟨rfl, rfl⟩

/-- Claim C2 (amended): the prompt allows at most 3 attempts and a
recognized answer on attempt 1 or 2 returns the apply/skip decision, but
the third call of user_response consumes its answer and always raises the
AttributeError, recognized or not, so the whole update propagates the
error and applies no mutation; the prototypes/update_workflow.py variant
instead re-prompts forever on unrecognized answers and raises its
RuntimeError exactly when a recognized answer arrives on attempt 3. -/
theorem C2_attempt_bound (a b c : String) (rest : List String)
    (target branchFs : FSB) (f : String) (rb : List Nat)
    (ha : recognizedTok (pyStripLower a) = false)
    (hb : recognizedTok (pyStripLower b) = false)
    (hc : recognizedTok (pyStripLower c) = true)
    (href : fsGet branchFs f = some rb)
    (hdiff : localChecksum target f ≠ md5hex rb) :
    user_response (a :: b :: c :: rest) 0 = .error attrErr ∧
    user_response (c :: rest) 0 = .ok (posTokens.contains (pyStripLower c), rest) ∧
    user_response (a :: c :: rest) 0 =
      .ok (posTokens.contains (pyStripLower c), rest) ∧
    update_file f target branchFs (a :: b :: c :: rest) = .error attrErr ∧
    user_response_wf_proto (a :: b :: c :: rest) 0 = .error runtimeErr := by
  have h1 : user_response (a :: b :: c :: rest) 0 = .error attrErr := by
    simp [user_response, ha, hb]
  refine ⟨h1, ?_, ?_, ?_, ?_⟩
  · simp [user_response, hc]
  · simp [user_response, ha, hc]
  · rw [update_file_differs f target branchFs rb _ href hdiff]
    unfold ask_and_update
    rw [h1]
  · simp [user_response_wf_proto, ha, hb, hc]

/-- Witness for C2 at concrete answers and directories. -/
theorem C2_witness :
    user_response ["x", "zz", "yes"] 0 = .error attrErr ∧
    user_response ["yes"] 0 = .ok (posTokens.contains (pyStripLower "yes"), []) ∧
    user_response ["x", "yes"] 0 =
      .ok (posTokens.contains (pyStripLower "yes"), []) ∧
    update_file "LICENSE" [("LICENSE", [65])] [("LICENSE", [66])]
      ["x", "zz", "yes"] = .error attrErr ∧
    user_response_wf_proto ["x", "zz", "yes"] 0 = .error runtimeErr :=
  C2_attempt_bound "x" "zz" "yes" [] [("LICENSE", [65])] [("LICENSE", [66])]
    "LICENSE" [66] rfl rfl rfl rfl (by decide)

/-! ## Claim C9 -/

/-- Claim C9 (counterexample): the claim says every prompt evaluator
matches the six tokens case-insensitively and re-prompts on anything
else.  The evaluator of update_template.py looks the raw answer up in a
case-sensitive dict: the answer Yes, whose stripped lower-casing is the
affirmative token yes, raises ValueError instead of returning the apply
decision or re-prompting. -/
theorem C9_counterexample :
    evalAnswerTemplate "Yes" = .error (valueErr "Yes") ∧
    pyStripLower "Yes" ∈ posTokens := by
  exact ⟨rfl, by decide⟩

/-- Claim C9 (amended): user_response strips and lower-cases the answer
and returns apply exactly on yes/y/yay and skip exactly on no/n/nay,
re-prompting on any other answer (within its attempt limit); the inline
evaluator of update_template.py instead matches the six tokens exactly
and raises ValueError on any other answer, including other-cased
variants of the tokens, with no re-prompt. -/
theorem C9_token_evaluation (p n o : String) (xs : List String)
    (hp : pyStripLower p ∈ posTokens)
    (hn : pyStripLower n ∈ negTokens)
    (ho : recognizedTok (pyStripLower o) = false) :
    user_response (p :: xs) 0 = .ok (true, xs) ∧
    user_response (n :: xs) 0 = .ok (false, xs) ∧
    user_response (o :: xs) 0 = user_response xs 1 ∧
    answersMap o = none ∧
    evalAnswerTemplate o = .error (valueErr o) ∧
    evalAnswerTemplate "Yes" = .error (valueErr "Yes") := by
  have hp3 : pyStripLower p = "yes" ∨ pyStripLower p = "y" ∨
      pyStripLower p = "yay" := by
    simpa [posTokens] using hp
  have hn3 : pyStripLower n = "no" ∨ pyStripLower n = "n" ∨
      pyStripLower n = "nay" := by
    simpa [negTokens] using hn
  have h6 : ¬(o = "yes" ∨ o = "y" ∨ o = "yay") ∧
      ¬(o = "no" ∨ o = "n" ∨ o = "nay") := by
    constructor <;> rintro (h | h | h) <;>
      (subst h; exact absurd ho (by decide))
  have hmap : answersMap o = none := by
    simp only [answersMap, if_neg h6.1, if_neg h6.2]
  refine ⟨?_, ?_, ?_, hmap, ?_, rfl⟩
  · rcases hp3 with h | h | h <;>
      simp [user_response, h, recognizedTok, posTokens, negTokens]
  · rcases hn3 with h | h | h <;>
      simp [user_response, h, recognizedTok, posTokens, negTokens]
  · simp [user_response, ho]
  · simp [evalAnswerTemplate, hmap]

/-- Witness for C9 at concrete answers. -/
theorem C9_witness :
    user_response (" YES " :: ["r"]) 0 = .ok (true, ["r"]) ∧
    user_response ("No" :: ["r"]) 0 = .ok (false, ["r"]) ∧
    user_response ("maybe" :: ["r"]) 0 = user_response ["r"] 1 ∧
    answersMap "maybe" = none ∧
    evalAnswerTemplate "maybe" = .error (valueErr "maybe") ∧
    evalAnswerTemplate "Yes" = .error (valueErr "Yes") :=
  C9_token_evaluation " YES " "No" "maybe" ["r"] (by decide) (by decide)
    (by decide)

/-! ## Claim C4 -/

/-- Claim C4 (counterexample): the claim says an apply writes the new
content to a temporary path and then renames it onto the local path.  At
this concrete apply the event trace of update_file is a single direct
write to the local path: there is no temporary path and no rename, so the
claimed two-event shape is impossible. -/
theorem C4_counterexample :
    update_file "LICENSE" c4target c4branch ["y"] = .ok c4res ∧
    c4res.events = [.writeB "LICENSE" [66]] ∧
    ¬∃ tmp, c4res.events =
      [FsEvent.writeB tmp [66], FsEvent.rename tmp "LICENSE"] := by
  refine ⟨rfl, rfl, ?_⟩
  rintro ⟨tmp, h⟩
  simp [c4res] at h

/-- Claim C4 (amended): on an apply decision, update_file of
cubi-tools/update_metadata.py performs exactly one direct in-place write
of the reference bytes onto the local path — no temporary path and no
rename — so the write is not guarded against interruption. -/
theorem C4_direct_write_no_rename (f : String) (target branchFs : FSB)
    (rb : List Nat) (answers : List String) (r : FileRes)
    (href : fsGet branchFs f = some rb)
    (hdiff : localChecksum target f ≠ md5hex rb)
    (hok : update_file f target branchFs answers = .ok r)
    (happ : r.outcome = .updated) :
    r.events = [.writeB f rb] ∧
    r.fs = fsSet target f rb ∧
    (∀ s d, FsEvent.rename s d ∉ r.events) ∧
    (∀ e ∈ r.events, ∃ pth bts, e = FsEvent.writeB pth bts) := by
  rw [update_file_differs f target branchFs rb answers href hdiff] at hok
  unfold ask_and_update at hok
  cases hu : user_response answers 0 with
  | error e => rw [hu] at hok; simp at hok
  | ok pr =>
    rw [hu] at hok
    obtain ⟨dec, rest⟩ := pr
    cases dec with
    | false =>
      simp only [Except.ok.injEq] at hok
      rw [← hok] at happ
      simp at happ
    | true =>
      simp only [Except.ok.injEq] at hok
      subst hok
      refine ⟨rfl, rfl, ?_, ?_⟩
      · intro s d hmem
        rw [List.mem_singleton] at hmem
        exact FsEvent.noConfusion hmem
      · intro e he
        rw [List.mem_singleton] at he
        exact ⟨f, rb, he⟩

/-- Witness for C4 at the concrete apply. -/
theorem C4_witness :
    c4res.events = [.writeB "LICENSE" [66]] ∧
    c4res.fs = fsSet c4target "LICENSE" [66] ∧
    (∀ s d, FsEvent.rename s d ∉ c4res.events) ∧
    (∀ e ∈ c4res.events, ∃ pth bts, e = FsEvent.writeB pth bts) :=
  C4_direct_write_no_rename "LICENSE" c4target c4branch [66] ["y"] c4res rfl
    (by decide) rfl rfl

/-! ## Claim C8 -/

/-- Claim C8 (counterexample): the claim says a missing local file is
classified distinctly from a differing one and prompted with add wording.
update_file of cubi-tools/update_metadata.py prompts the identical
Update wording for a missing local LICENSE and for a present-but-different
one, and the question contains no Add. -/
theorem C8_counterexample :
    (match update_file "LICENSE" [] [("LICENSE", [66])] ["n"] with
      | .ok r => r.prompts
      | .error _ => []) = [updatePrompt "LICENSE"] ∧
    (match update_file "LICENSE" [("LICENSE", [65])] [("LICENSE", [66])] ["n"] with
      | .ok r => r.prompts
      | .error _ => []) = [updatePrompt "LICENSE"] ∧
    updatePrompt "LICENSE" = "Update LICENSE" ∧
    strHas (updatePrompt "LICENSE") "Add" = false ∧
    strHas (updatePrompt "LICENSE") "Update" = true := by
  exact ⟨rfl, rfl, rfl, by decide, by decide⟩

/-- Claim C8 (amended): a missing local file is encoded as the empty
checksum, which never equals the reference digest, so update_file routes
it through the same decision branch as a differing file and asks the same
Update question; only the structured pyproject.toml handler detects a
missing file separately and asks with Add wording. -/
theorem C8_missing_same_branch_update_wording (f : String)
    (target branchFs : FSB) (tFst bFst : FST)
    (answers answers2 : List String) (rb : List Nat)
    (r : FileRes) (pr : PyRes)
    (hmiss : fsGet target f = none)
    (href : fsGet branchFs f = some rb)
    (hpy : fstGet tFst "pyproject.toml" = none)
    (hok : ask_and_update f target rb answers = .ok r)
    (hok2 : update_pyproject_meta tFst bFst answers2 = .ok pr) :
    localChecksum target f = "" ∧
    localChecksum target f ≠ md5hex rb ∧
    update_file f target branchFs answers = ask_and_update f target rb answers ∧
    r.prompts = [updatePrompt f] ∧
    pr.prompts = [addPyprojectPrompt] := by
  have h0 : localChecksum target f = "" := by simp [localChecksum, hmiss]
  have hdiff : localChecksum target f ≠ md5hex rb := by
    rw [h0]
    exact fun h => md5hex_ne_empty rb h.symm
  refine ⟨h0, hdiff, update_file_differs f target branchFs rb answers href hdiff,
    ?_, ?_⟩
  · unfold ask_and_update at hok
    cases hu : user_response answers 0 with
    | error e => rw [hu] at hok; simp at hok
    | ok prr =>
      rw [hu] at hok
      obtain ⟨dec, rest⟩ := prr
      cases dec <;>
        (simp only [Except.ok.injEq] at hok; rw [← hok])
  · unfold update_pyproject_meta at hok2
    rw [hpy] at hok2
    cases hu : user_response answers2 0 with
    | error e => rw [hu] at hok2; simp at hok2
    | ok prr =>
      rw [hu] at hok2
      obtain ⟨dec, rest⟩ := prr
      cases dec with
      | false =>
        simp only [Except.ok.injEq] at hok2
        rw [← hok2]
      | true =>
        cases hb : fstGet bFst "pyproject.toml" with
        | none => rw [hb] at hok2; simp at hok2
        | some bdoc =>
          rw [hb] at hok2
          simp only [Except.ok.injEq] at hok2
          rw [← hok2]

/-- Witness for C8 at concrete directories with LICENSE locally absent. -/
theorem C8_witness :
    localChecksum ([] : FSB) "LICENSE" = "" ∧
    localChecksum ([] : FSB) "LICENSE" ≠ md5hex [66] ∧
    update_file "LICENSE" [] [("LICENSE", [66])] ["n"] =
      ask_and_update "LICENSE" [] [66] ["n"] ∧
    FileRes.prompts ⟨[], [], [updatePrompt "LICENSE"], [], .notUpdated⟩ =
      [updatePrompt "LICENSE"] ∧
    PyRes.prompts ⟨[], [], [addPyprojectPrompt], [], .notUpdated⟩ =
      [addPyprojectPrompt] :=
  C8_missing_same_branch_update_wording "LICENSE" [] [("LICENSE", [66])]
    [] [] ["n"] ["n"] [66]
    ⟨[], [], [updatePrompt "LICENSE"], [], .notUpdated⟩
    ⟨[], [], [addPyprojectPrompt], [], .notUpdated⟩
    rfl rfl rfl rfl rfl

/-! ## Claim C3 -/

/-- Claim C3 (counterexample): the claim says no file other than the
structured document changes in the local directory.  The update of
update_template.py, applied to a directory holding only pyproject.toml,
creates the download artifact pyproject.toml.temp there: absent before
the run, it exists with the reference document afterwards. -/
theorem C3_counterexample :
    fstGet c3fs tempName = none ∧
    (match update_pyproject_template c3fs c3ref "yes" with
      | .ok fs2 => fstGet fs2 tempName
      | .error _ => none) = some c3ref := by
  exact ⟨rfl, rfl⟩

/-- Claim C3 (amended): after a successful structured apply the parsed
local document carries the reference value at cubi.metadata.version and
agrees with its pre-update parse at every key path disjoint from it, with
the key sets of every table along the path unchanged; pyproject.toml is
rewritten and, in update_template.py, the only other file touched in the
local directory is the created download artifact pyproject.toml.temp. -/
theorem C3_single_field_patch (fs : FST) (refDoc localDoc vnew vold merged : Toml)
    (ans : String)
    (hans : answersMap ans = some true)
    (hloc : fstGet fs "pyproject.toml" = some localDoc)
    (hv : getPath refDoc metaPath = some vnew)
    (hold : getPath localDoc metaPath = some vold)
    (hset : setPath localDoc metaPath vnew = some merged) :
    update_pyproject_template fs refDoc ans =
      .ok (fstSet (fstSet fs tempName refDoc) "pyproject.toml" merged) ∧
    getPath merged metaPath = some vnew ∧
    (∀ q, pfx metaPath q = false → pfx q metaPath = false →
      getPath merged q = getPath localDoc q) ∧
    (∀ q, pfx q metaPath = true → q ≠ metaPath →
      keysAt merged q = keysAt localDoc q) ∧
    (∀ nm, nm ≠ "pyproject.toml" → nm ≠ tempName →
      fstGet (fstSet (fstSet fs tempName refDoc) "pyproject.toml" merged) nm =
        fstGet fs nm) ∧
    get_metadata_versions refDoc localDoc = some (vnew, vold, merged) := by
  have hT1 : fstGet (fstSet fs tempName refDoc) tempName = some refDoc := by
    rw [fstGet_fstSet, if_pos rfl]
  have hT2 : fstGet (fstSet fs tempName refDoc) "pyproject.toml" =
      some localDoc := by
    rw [fstGet_fstSet, if_neg (by decide), hloc]
  refine ⟨?_, getPath_setPath_self metaPath localDoc vnew merged hset,
    fun q h1 h2 => setPath_frame metaPath localDoc vnew merged q hset h1 h2,
    fun q h1 h2 => setPath_keysAt metaPath localDoc vnew merged vold q hset hold h1 h2,
    ?_, ?_⟩
  · unfold update_pyproject_template
    simp only [evalAnswerTemplate, hans, hT1, hT2, hv, hset]
  · intro nm h1 h2
    rw [fstGet_fstSet, if_neg (fun h => h1 h.symm),
      fstGet_fstSet, if_neg (fun h => h2 h.symm)]
  · unfold get_metadata_versions
    simp only [hv, hold, hset]

/-- Witness for C3 at the concrete documents. -/
theorem C3_witness :
    update_pyproject_template c3fs c3ref "yes" =
      .ok (fstSet (fstSet c3fs tempName c3ref) "pyproject.toml" c3merged) ∧
    getPath c3merged metaPath = some (.str "2.0") ∧
    (∀ q, pfx metaPath q = false → pfx q metaPath = false →
      getPath c3merged q = getPath c3loc q) ∧
    (∀ q, pfx q metaPath = true → q ≠ metaPath →
      keysAt c3merged q = keysAt c3loc q) ∧
    (∀ nm, nm ≠ "pyproject.toml" → nm ≠ tempName →
      fstGet (fstSet (fstSet c3fs tempName c3ref) "pyproject.toml" c3merged) nm =
        fstGet c3fs nm) ∧
    get_metadata_versions c3ref c3loc = some (.str "2.0", .str "1.5", c3merged) :=
  C3_single_field_patch c3fs c3ref c3loc (.str "2.0") (.str "1.5") c3merged
    "yes" rfl rfl rfl rfl rfl

/-! ## Claim C7 -/

/-- Claim C7 (counterexample): the claim says the two key paths are
decided independently.  With both versions differing and the answers
yes then no, the code consumes only the first answer and patches both
paths, writing workflow version 2.1, while the independent-decision
procedure described by the spec patches only the metadata path and keeps
workflow version 2.0 — so the code result differs from the claimed
behavior. -/
theorem C7_counterexample :
    (c7code.bind fun d => asStr (getPath d wfPath)) = some "2.1" ∧
    (c7spec.bind fun d => asStr (getPath d wfPath)) = some "2.0" ∧
    c7code ≠ c7spec := by
  refine ⟨rfl, rfl, ?_⟩
  intro h
  have h2 : (c7spec.bind fun d => asStr (getPath d wfPath)) = some "2.1" := by
    rw [← h]
    rfl
  have h3 : (c7spec.bind fun d => asStr (getPath d wfPath)) = some "2.0" := rfl
  rw [h2] at h3
  exact absurd h3 (by decide)

/-- Claim C7 (amended): the two key paths are extracted and compared, but
a single disjunctive test and one prompt decide both together: on an
apply both paths are overwritten with the template values, merged into
one document and written in one single write consuming one answer, and on
a skip nothing is written; the merged document carries the template value
at both paths. -/
theorem C7_joint_decision_single_write (target branchFs : FST)
    (pdoc tdoc tm pm tw pw p1 p2 : Toml) (a nn : String) (rest : List String)
    (hp : fstGet target "pyproject.toml" = some pdoc)
    (ht : fstGet branchFs "pyproject.toml" = some tdoc)
    (hg1 : getPath tdoc metaPath = some tm)
    (hg2 : getPath pdoc metaPath = some pm)
    (hs1 : setPath pdoc metaPath tm = some p1)
    (hg3 : getPath tdoc wfPath = some tw)
    (hg4 : getPath p1 wfPath = some pw)
    (hs2 : setPath p1 wfPath tw = some p2)
    (hne : (tomlBEq tm pm && tomlBEq tw pw) = false)
    (hyes : pyStripLower a ∈ posTokens)
    (hno : pyStripLower nn ∈ negTokens) :
    compare_pyproject_versions pdoc tdoc = some (tm, pm, tw, pw, p2) ∧
    update_pyproject_wf target branchFs (a :: rest) =
      .ok ⟨fstSet target "pyproject.toml" p2, rest, [updWfPrompt],
           [.writeT "pyproject.toml" p2], .updated⟩ ∧
    update_pyproject_wf target branchFs (nn :: rest) =
      .ok ⟨target, rest, [updWfPrompt], [], .notUpdated⟩ ∧
    getPath p2 metaPath = some tm ∧
    getPath p2 wfPath = some tw := by
  have hcmp : compare_pyproject_versions pdoc tdoc = some (tm, pm, tw, pw, p2) := by
    unfold compare_pyproject_versions
    simp only [hg1, hg2, hs1, hg3, hg4, hs2]
  have hua : user_response (a :: rest) 0 = .ok (true, rest) := by
    have hp3 : pyStripLower a = "yes" ∨ pyStripLower a = "y" ∨
        pyStripLower a = "yay" := by
      simpa [posTokens] using hyes
    rcases hp3 with h | h | h <;>
      simp [user_response, h, recognizedTok, posTokens, negTokens]
  have hun : user_response (nn :: rest) 0 = .ok (false, rest) := by
    have hn3 : pyStripLower nn = "no" ∨ pyStripLower nn = "n" ∨
        pyStripLower nn = "nay" := by
      simpa [negTokens] using hno
    rcases hn3 with h | h | h <;>
      simp [user_response, h, recognizedTok, posTokens, negTokens]
  refine ⟨hcmp, ?_, ?_, ?_, getPath_setPath_self wfPath p1 tw p2 hs2⟩
  · unfold update_pyproject_wf
    simp only [hp, ht, hcmp, hne, hua]
    simp
  · unfold update_pyproject_wf
    simp only [hp, ht, hcmp, hne, hun]
    simp
  · have hfr : getPath p2 metaPath = getPath p1 metaPath :=
      setPath_frame wfPath p1 tw p2 metaPath hs2 (by decide) (by decide)
    rw [hfr]
    exact getPath_setPath_self metaPath pdoc tm p1 hs1

/-- Witness for C7 at the concrete documents. -/
theorem C7_witness :
    compare_pyproject_versions c7proj c7tmpl =
      some (.str "1.1", .str "1.0", .str "2.1", .str "2.0", c7p2) ∧
    update_pyproject_wf [("pyproject.toml", c7proj)]
        [("pyproject.toml", c7tmpl)] ["yes"] =
      .ok ⟨fstSet [("pyproject.toml", c7proj)] "pyproject.toml" c7p2, [],
           [updWfPrompt], [.writeT "pyproject.toml" c7p2], .updated⟩ ∧
    update_pyproject_wf [("pyproject.toml", c7proj)]
        [("pyproject.toml", c7tmpl)] ["no"] =
      .ok ⟨[("pyproject.toml", c7proj)], [], [updWfPrompt], [], .notUpdated⟩ ∧
    getPath c7p2 metaPath = some (.str "1.1") ∧
    getPath c7p2 wfPath = some (.str "2.1") :=
  C7_joint_decision_single_write [("pyproject.toml", c7proj)]
    [("pyproject.toml", c7tmpl)] c7proj c7tmpl (.str "1.1") (.str "1.0")
    (.str "2.1") (.str "2.0") c7p1 c7p2 "yes" "no" []
    rfl rfl rfl rfl rfl rfl rfl rfl rfl (by decide) (by decide)

/-! ## Claim C6 -/

/-- The dispatch trace of the update_template.py loop is a sublist of the
tracked-file list: order preserved, no file dispatched twice. -/
theorem tmain_sublist :
    ∀ (files : List String) (differs : String → Bool)
      (answers : List String) (fu : Bool) (tr : List String),
      tmain files differs answers fu = .ok tr → tr.Sublist files := by
  intro files
  induction files with
  | nil =>
    intro differs answers fu tr h
    simp only [tmain, Except.ok.injEq] at h
    cases h
    exact List.Sublist.refl []
  | cons f rest IH =>
    intro differs answers fu tr h
    unfold tmain at h
    by_cases hf : f = "pyproject.toml"
    · rw [if_pos hf] at h
      cases fu with
      | false =>
        rw [if_neg (by simp)] at h
        exact (IH differs answers false tr h).cons f
      | true =>
        rw [if_pos (by simp)] at h
        cases answers with
        | nil => simp at h
        | cons a ans2 =>
          cases he : evalAnswerTemplate a with
          | error e => simp [he] at h
          | ok b =>
            simp only [he] at h
            cases ht : tmain rest differs ans2 true with
            | error e => simp [ht] at h
            | ok tr3 =>
              simp only [ht, Except.ok.injEq] at h
              rw [← h]
              exact (IH differs ans2 true tr3 ht).cons₂ f
    · rw [if_neg hf] at h
      cases fu with
      | true =>
        rw [if_pos (by simp)] at h
        exact (IH differs answers true tr h).cons f
      | false =>
        rw [if_neg (by simp)] at h
        cases hu : updateFileT f differs answers with
        | error e => simp [hu] at h
        | ok pr =>
          simp only [hu] at h
          obtain ⟨b, ans2⟩ := pr
          simp only [Bool.false_or] at h
          cases ht : tmain rest differs ans2 b with
          | error e => simp [ht] at h
          | ok tr3 =>
            simp only [ht, Except.ok.injEq] at h
            rw [← h]
            exact (IH differs ans2 b tr3 ht).cons₂ f

/-- Once files_updated is True, only pyproject.toml can still be
dispatched by the update_template.py loop. -/
theorem tmain_fu_only_pyproject :
    ∀ (files : List String) (differs : String → Bool)
      (answers : List String) (tr : List String),
      tmain files differs answers true = .ok tr →
      ∀ x ∈ tr, x = "pyproject.toml" := by
  intro files
  induction files with
  | nil =>
    intro differs answers tr h
    simp only [tmain, Except.ok.injEq] at h
    rw [← h]
    simp
  | cons f rest IH =>
    intro differs answers tr h
    unfold tmain at h
    by_cases hf : f = "pyproject.toml"
    · rw [if_pos hf, if_pos (by simp)] at h
      cases answers with
      | nil => simp at h
      | cons a ans2 =>
        cases he : evalAnswerTemplate a with
        | error e => simp [he] at h
        | ok b =>
          simp only [he] at h
          cases ht : tmain rest differs ans2 true with
          | error e => simp [ht] at h
          | ok tr3 =>
            simp only [ht, Except.ok.injEq] at h
            rw [← h]
            intro x hx
            rcases List.mem_cons.mp hx with hx | hx
            · rw [hx, hf]
            · exact IH differs ans2 tr3 ht x hx
    · rw [if_neg hf, if_pos (by simp)] at h
      exact IH differs answers tr h

/-- update_file_list always places pyproject.toml last. -/
theorem update_file_list_getLast (allFiles : List String)
    (metadata dryrun : Bool) :
    (update_file_list allFiles metadata dryrun).getLast? =
      some "pyproject.toml" := by
  cases dryrun with
  | true => cases metadata <;> rfl
  | false =>
    cases metadata with
    | true =>
      show (workflowFilesOf allFiles).getLast? = some "pyproject.toml"
      exact List.getLast?_concat _
    | false =>
      show ((workflowFilesOf allFiles).filter
        (fun item => !(metadataFiles3.contains item))).getLast? =
          some "pyproject.toml"
      unfold workflowFilesOf
      rw [List.filter_append]
      rw [show List.filter (fun item => !(metadataFiles3.contains item))
          ["pyproject.toml"] = ["pyproject.toml"] from rfl]
      exact List.getLast?_concat _

/-- The update_workflow.py loop dispatches exactly the listed files, in
order. -/
theorem wmainDispatch_fst :
    ∀ (files : List String), (wmainDispatch files).map Prod.fst = files := by
  intro files
  induction files with
  | nil => rfl
  | cons f rest IH => simp [wmainDispatch, IH]

/-- Claim C6 (counterexample): the claim says every entry of the tracked
list is dispatched exactly once.  In update_template.py, once the first
file reports an update the short-circuit or skips the comparison of every
later non-pyproject file: with CITATION.md differing and answered yes,
LICENSE and .editorconfig are never dispatched. -/
theorem C6_counterexample :
    tmain ["CITATION.md", "LICENSE", ".editorconfig", "pyproject.toml"]
      (fun f => f = "CITATION.md") ["y", "y"] false =
      .ok ["CITATION.md", "pyproject.toml"] ∧
    List.count "LICENSE" ["CITATION.md", "pyproject.toml"] = 0 := by
  exact ⟨rfl, rfl⟩

/-- Claim C6 (amended): the driver visits the tracked list in its fixed
order and dispatches each entry at most once — the trace is a sublist of
the list — but in update_template.py a non-pyproject entry is skipped
once an earlier entry was updated, and pyproject.toml (always positioned
last by update_workflow.py's update_file_list) is dispatched only when
some earlier file was updated; update_workflow.py's own loop dispatches
every listed file exactly once in order. -/
theorem C6_dispatch_order (files : List String) (differs : String → Bool)
    (answers answers2 : List String) (fu : Bool) (tr tr2 : List String)
    (allFiles : List String) (metadata : Bool)
    (h : tmain files differs answers fu = .ok tr)
    (h2 : tmain files differs answers2 true = .ok tr2) :
    tr.Sublist files ∧
    (∀ x ∈ tr2, x = "pyproject.toml") ∧
    (update_file_list allFiles metadata false).getLast? =
      some "pyproject.toml" ∧
    (wmainDispatch (update_file_list allFiles metadata false)).map Prod.fst =
      update_file_list allFiles metadata false :=
  ⟨tmain_sublist files differs answers fu tr h,
   tmain_fu_only_pyproject files differs answers2 tr2 h2,
   update_file_list_getLast allFiles metadata false,
   wmainDispatch_fst _⟩

/-- Witness for C6 at a concrete run. -/
theorem C6_witness :
    List.Sublist ["CITATION.md", "LICENSE", ".editorconfig"]
      ["CITATION.md", "LICENSE", ".editorconfig", "pyproject.toml"] ∧
    (∀ x ∈ ["pyproject.toml"], x = "pyproject.toml") ∧
    (update_file_list ["LICENSE", "workflow/rules/commons/00_commons.smk"]
      false false).getLast? = some "pyproject.toml" ∧
    (wmainDispatch (update_file_list
        ["LICENSE", "workflow/rules/commons/00_commons.smk"] false false)).map
      Prod.fst =
      update_file_list ["LICENSE", "workflow/rules/commons/00_commons.smk"]
        false false :=
  C6_dispatch_order ["CITATION.md", "LICENSE", ".editorconfig", "pyproject.toml"]
    (fun _ => false) ["y"] ["y"] false
    ["CITATION.md", "LICENSE", ".editorconfig"] ["pyproject.toml"]
    ["LICENSE", "workflow/rules/commons/00_commons.smk"] false rfl rfl

/-! ## Claim C1 -/

/-- Claim C1 (counterexample): the claim says a dry run modifies no file
in the reference mirror.  The dry-run branch of clone still runs
git pull --all and git checkout in the mirror: with the remote main
branch ahead (LICENSE byte 66 instead of 65), the mirror working tree
holds different LICENSE bytes after the dry run than before it. -/
theorem C1_counterexample :
    fsGet (wtree c1m).files "LICENSE" = some [65] ∧
    (match mainDry c1loc (some c1m) [("main", c1dirNew)] "main" with
      | .ok (_, m) => fsGet (wtree m).files "LICENSE"
      | .error _ => none) = some [66] := by
  exact ⟨rfl, rfl⟩

/-- Claim C1 (amended): every dry-run invocation of the
update_metadata.py driver that completes leaves the local target
directory exactly as it was — no file there is created, modified or
deleted and no prompt answer is consumed — while the reference mirror is
refreshed in place by git pull and git checkout and may change. -/
theorem C1_dry_run_preserves_local (localDir : Dir) (mirror : Option Mirror)
    (remote : List (String × Dir)) (source : String) (res : Dir × Mirror)
    (h : mainDry localDir mirror remote source = .ok res) :
    res.1 = localDir := by
  unfold mainDry at h
  cases hc : cloneDry mirror remote source with
  | error e => simp [hc] at h
  | ok m =>
    simp only [hc] at h
    cases h1 : update_file_dry "CITATION.md" localDir (wtree m) with
    | error e => simp [h1] at h
    | ok u1 =>
      simp only [h1] at h
      cases h2 : update_file_dry "LICENSE" localDir (wtree m) with
      | error e => simp [h2] at h
      | ok u2 =>
        simp only [h2] at h
        cases h3 : update_file_dry ".editorconfig" localDir (wtree m) with
        | error e => simp [h3] at h
        | ok u3 =>
          simp only [h3] at h
          cases h4 : update_pyproject_dry localDir (wtree m) with
          | error e => simp [h4] at h
          | ok u4 =>
            simp only [h4] at h
            cases h5 : gitCheckout m "main" with
            | ok m2 =>
              simp only [h5, Except.ok.injEq] at h
              rw [← h]
            | error e =>
              simp only [h5, Except.ok.injEq] at h
              rw [← h]

/-- Witness for C1 at a concrete successful dry run. -/
theorem C1_witness : w1res.1 = w1loc :=
  C1_dry_run_preserves_local w1loc (some w1m) [("main", w1dir)] "main"
    w1res rfl

end Devtools
